import Mathlib

/-! # A verification development for `sqlite3_btree.c`

The file `src/sqlite3_btree.c` is a small harness that drives SQLite's B-tree
layer: `sqlite3ErrStr`, the wrappers `btree_open` ... `btree_commit`, and a
`main` that inserts one record.  The B-tree layer itself is an external
library; every call into it is recorded in a trace and its result is chosen by
an environment `Env`, so that statements of the form "for every outcome of the
engine calls" quantify over all environments.
-/

namespace Sqlite3Btree

/-! ## Header constants and build flags -/

/-- Modelled from the spec: result code `SQLITE_OK` of the missing header
`sqlite3.h` (value 0). -/
def SQLITE_OK : Int := 0

/-- Modelled from the spec: result code `SQLITE_ROW` of the missing header
`sqlite3.h` (value 100). -/
def SQLITE_ROW : Int := 100

/-- Modelled from the spec: result code `SQLITE_DONE` of the missing header
`sqlite3.h` (value 101). -/
def SQLITE_DONE : Int := 101

/-- Modelled from the spec: extended result code `SQLITE_ABORT_ROLLBACK` of the
missing header `sqlite3.h`, `SQLITE_ABORT | (2<<8)` (value 516). -/
def SQLITE_ABORT_ROLLBACK : Int := 516

/-- Modelled from the spec: cursor flag `BTREE_WRCSR` of the missing header
`btree.h`, the "writable" flag of a cursor (value 4). -/
def BTREE_WRCSR : Int := 4

/-- The mutex kinds of `sqlite3.h` that the harness names. -/
inductive MutexKind where
  | SQLITE_MUTEX_RECURSIVE
  deriving DecidableEq

/-- The open flags of `sqlite3.h` that the harness names. -/
inductive OpenFlag where
  | SQLITE_OPEN_READWRITE
  | SQLITE_OPEN_CREATE
  | SQLITE_OPEN_MAIN_DB
  | SQLITE_OPEN_URI
  deriving DecidableEq

/-- The flag set `SQLITE_OPEN_READWRITE | SQLITE_OPEN_CREATE |
SQLITE_OPEN_MAIN_DB | SQLITE_OPEN_URI` that `btree_open` passes. -/
def openFlags : List OpenFlag :=
  [.SQLITE_OPEN_READWRITE, .SQLITE_OPEN_CREATE, .SQLITE_OPEN_MAIN_DB, .SQLITE_OPEN_URI]

/-- The preprocessor symbols the source file tests. -/
structure Build where
  /-- `SQLITE_DISABLE_LFS` is defined. -/
  disableLFS : Bool
  /-- `SQLITE_OMIT_SHARED_CACHE` is defined. -/
  omitSharedCache : Bool
  /-- `SQLITE_THREADSAFE>0`. -/
  threadsafe : Bool
  deriving DecidableEq

/-- The default build: none of the `OMIT`/`DISABLE` symbols, thread-safe. -/
def defaultBuild : Build := ⟨false, false, true⟩

/-! ## `sqlite3ErrStr` -/

/-- The static table `aMsg[]` of `sqlite3ErrStr`; `none` is a null entry. -/
def aMsg (b : Build) : List (Option String) :=
  [ /- SQLITE_OK          -/ some "not an error",
    /- SQLITE_ERROR       -/ some "SQL logic error",
    /- SQLITE_INTERNAL    -/ none,
    /- SQLITE_PERM        -/ some "access permission denied",
    /- SQLITE_ABORT       -/ some "query aborted",
    /- SQLITE_BUSY        -/ some "database is locked",
    /- SQLITE_LOCKED      -/ some "database table is locked",
    /- SQLITE_NOMEM       -/ some "out of memory",
    /- SQLITE_READONLY    -/ some "attempt to write a readonly database",
    /- SQLITE_INTERRUPT   -/ some "interrupted",
    /- SQLITE_IOERR       -/ some "disk I/O error",
    /- SQLITE_CORRUPT     -/ some "database disk image is malformed",
    /- SQLITE_NOTFOUND    -/ some "unknown operation",
    /- SQLITE_FULL        -/ some "database or disk is full",
    /- SQLITE_CANTOPEN    -/ some "unable to open database file",
    /- SQLITE_PROTOCOL    -/ some "locking protocol",
    /- SQLITE_EMPTY       -/ none,
    /- SQLITE_SCHEMA      -/ some "database schema has changed",
    /- SQLITE_TOOBIG      -/ some "string or blob too big",
    /- SQLITE_CONSTRAINT  -/ some "constraint failed",
    /- SQLITE_MISMATCH    -/ some "datatype mismatch",
    /- SQLITE_MISUSE      -/ some "bad parameter or other API misuse",
    /- SQLITE_NOLFS       -/ (if b.disableLFS then some "large file support is disabled" else none),
    /- SQLITE_AUTH        -/ some "authorization denied",
    /- SQLITE_FORMAT      -/ none,
    /- SQLITE_RANGE       -/ some "column index out of range",
    /- SQLITE_NOTADB      -/ some "file is not a database",
    /- SQLITE_NOTICE      -/ some "notification message",
    /- SQLITE_WARNING     -/ some "warning message" ]

/-- Modelled from the spec: the macro `ArraySize` of the missing header
`sqliteInt.h`, applied to `aMsg`: the number of elements of the array. -/
def ArraySize (b : Build) : Int := (aMsg b).length

/-- The array read `aMsg[i]`, for an index that the caller has bounded. -/
def aMsgAt (b : Build) (i : Int) : Option String :=
  ((aMsg b).get? i.toNat).join

/-- The function `sqlite3ErrStr`.  The result is a C string pointer, `none`
being the null pointer.  `rc &= 0xff` on a two's-complement `int` is the
residue of `rc` modulo 256 in `0..255`, which is what `%` computes on `Int`.
The macro `ALWAYS(X)` of the missing header `sqliteInt.h` has the value of
`X`. -/
def sqlite3ErrStr (b : Build) (rc : Int) : Option String :=
  let zErr : Option String := some "unknown error"
  if rc = SQLITE_ABORT_ROLLBACK then
    some "abort due to ROLLBACK"
  else if rc = SQLITE_ROW then
    some "another row available"
  else if rc = SQLITE_DONE then
    some "no more rows available"
  else
    let rc := rc % 256
    if 0 ≤ rc ∧ rc < ArraySize b ∧ aMsgAt b rc ≠ none then
      aMsgAt b rc
    else
      zErr

/-! ## The environment: the B-tree library and the C runtime -/

/-- A C pointer; `0` is the null pointer. -/
abbrev Ptr := Nat

/-- Every call that leaves the harness: into SQLite's B-tree and mutex layer,
and into the C allocator.  The arguments are the ones the source passes. -/
inductive Call where
  | sqlite3_vfs_find (zVfs : Ptr)
  | sqlite3MutexAlloc (id : MutexKind)
  | sqlite3_mutex_enter (p : Ptr)
  | sqlite3_mutex_leave (p : Ptr)
  | sqlite3_mutex_free (p : Ptr)
  | sqlite3BtreeOpen (pVfs : Ptr) (zFilename : String) (flags : Int)
      (vfsFlags : List OpenFlag)
  | sqlite3BtreeSetCacheSize (p : Ptr) (mxPage : Int)
  | sqlite3BtreeClose (p : Ptr)
  | sqlite3BtreeEnter (p : Ptr)
  | sqlite3BtreeLeave (p : Ptr)
  | sqlite3BtreeBeginTrans (p : Ptr) (wrflag : Int)
  | sqlite3BtreeLockTable (p : Ptr) (iTab : Int) (isWriteLock : Int)
  | sqlite3BtreeCursorSize
  | sqlite3BtreeCursor (p : Ptr) (iTable : Int) (wrFlag : Int) (pKeyInfo : Ptr) (pCur : Ptr)
  | sqlite3BtreeCloseCursor (pCur : Ptr)
  | sqlite3BtreeNext (pCur : Ptr) (flags : Int)
  | sqlite3BtreeFirst (pCur : Ptr)
  | sqlite3BtreeEof (pCur : Ptr)
  | sqlite3BtreePayloadSize (pCur : Ptr)
  | sqlite3BtreeInsert (pCur : Ptr) (nKey : Int) (pData : List Nat) (nData : Int)
      (flags : Int) (seekResult : Int)
  | sqlite3BtreeCommit (p : Ptr)
  | malloc (size : Int)
  | memset (p : Ptr) (c : Int) (n : Int)
  | free (p : Ptr)
  deriving DecidableEq

/-- One entry of the trace: the call, and the result code it returned when the
call is one that returns an SQLite result code (`none` for calls that return
nothing, a pointer, a size or a boolean). -/
structure Event where
  call : Call
  status : Option Int
  deriving DecidableEq

/-- The outcomes of the calls, indexed by the position of the call in the
trace.  Nothing is assumed about them. -/
structure Env where
  /-- The `int` (or `u32`) the call returns. -/
  ret : Nat → Int
  /-- The pointer the call returns. -/
  ptr : Nat → Ptr
  /-- The pointer the call stores through a pointer argument, `none` when it
  stores nothing. -/
  out : Nat → Option Ptr
  /-- The `int` the call stores through a pointer argument, `none` when it
  stores nothing. -/
  res : Nat → Option Int

/-- A line written to standard output by `printf`. -/
inductive Output where
  | errStr (z : Option String)
  | btreeAddr (p : Ptr)
  | cursorAddr (p : Ptr)
  deriving DecidableEq

/-- The fields of `struct sqlite3` that the harness uses. -/
structure Sqlite3 where
  pVfs : Ptr
  mutex : Ptr
  deriving DecidableEq

/-- The program state: the statics `sDb` and `nRefSqlite3`, the trace of calls
made so far and the lines printed so far.  `nRefSqlite3` is an unbounded
integer: overflow of the C `int` is not modelled. -/
structure State where
  sDb : Sqlite3
  nRefSqlite3 : Int
  trace : List Event
  stdout : List Output
  deriving DecidableEq

/-- The state at program start: statics are zero-initialised. -/
def init : State := ⟨⟨0, 0⟩, 0, [], []⟩

/-- The fields of a `BtCursor` object that the harness reads: its address and
its `pBtree` member. -/
structure BtCursor where
  addr : Ptr
  pBtree : Ptr
  deriving DecidableEq

/-- Append a call to the trace. -/
def emit (c : Call) (st : Option Int) (s : State) : State :=
  { s with trace := s.trace ++ [⟨c, st⟩] }

/-- A call that returns an SQLite result code. -/
def callStatus (ω : Env) (c : Call) (s : State) : Int × State :=
  (ω.ret s.trace.length, emit c (some (ω.ret s.trace.length)) s)

/-- A call that returns an integer which is not a result code. -/
def callInt (ω : Env) (c : Call) (s : State) : Int × State :=
  (ω.ret s.trace.length, emit c none s)

/-- A call that returns a pointer. -/
def callPtr (ω : Env) (c : Call) (s : State) : Ptr × State :=
  (ω.ptr s.trace.length, emit c none s)

/-- A call that returns nothing, or whose result the source discards
(`sqlite3BtreeSetCacheSize`). -/
def callVoid (c : Call) (s : State) : State :=
  emit c none s

/-- The statement `printf("%s\n", sqlite3ErrStr(rc))`. -/
def printErr (b : Build) (rc : Int) (s : State) : State :=
  { s with stdout := s.stdout ++ [Output.errStr (sqlite3ErrStr b rc)] }

/-- Conversion of a `u32` to `int`. -/
def u32ToInt (n : Int) : Int :=
  if n % 2 ^ 32 < 2 ^ 31 then n % 2 ^ 32 else n % 2 ^ 32 - 2 ^ 32

/-! ## The wrappers

Every `Btree` is opened with `&sDb` as its connection, so `pBt->db->mutex` is
`sDb.mutex`. -/

/-- The function `btree_open`; `pBt0` is the incoming content of `*pBt`, the
second component of the result is its content on return. -/
def btree_open (b : Build) (ω : Env) (zFilename : String) (pBt0 : Ptr) (s : State) :
    (Int × Ptr) × State :=
  let nCache : Int := 100
  let s := { s with nRefSqlite3 := s.nRefSqlite3 + 1 }
  let s :=
    if s.nRefSqlite3 = 1 then
      let (v, s) := callPtr ω (.sqlite3_vfs_find 0) s
      let s := { s with sDb := { s.sDb with pVfs := v } }
      let (m, s) := callPtr ω (.sqlite3MutexAlloc .SQLITE_MUTEX_RECURSIVE) s
      let s := { s with sDb := { s.sDb with mutex := m } }
      callVoid (.sqlite3_mutex_enter s.sDb.mutex) s
    else s
  let pBt := (ω.out s.trace.length).getD pBt0
  let (rc, s) := callStatus ω (.sqlite3BtreeOpen s.sDb.pVfs zFilename 0 openFlags) s
  if rc ≠ SQLITE_OK then
    ((-1, pBt), printErr b rc s)
  else
    let s := callVoid (.sqlite3BtreeSetCacheSize pBt nCache) s
    let s := { s with stdout := s.stdout ++ [Output.btreeAddr pBt] }
    ((0, pBt), s)

/-- The function `btree_close`. -/
def btree_close (b : Build) (ω : Env) (pBt : Ptr) (s : State) : Int × State :=
  let (rc, s) := callStatus ω (.sqlite3BtreeClose pBt) s
  if rc ≠ SQLITE_OK then
    (-1, printErr b rc s)
  else
    let s := { s with nRefSqlite3 := s.nRefSqlite3 - 1 }
    let s :=
      if s.nRefSqlite3 = 0 then
        let s := callVoid (.sqlite3_mutex_leave s.sDb.mutex) s
        let s := callVoid (.sqlite3_mutex_free s.sDb.mutex) s
        let s := { s with sDb := { s.sDb with mutex := 0 } }
        { s with sDb := { s.sDb with pVfs := 0 } }
      else s
    (0, s)

/-- The function `btree_begin_transaction`. -/
def btree_begin_transaction (b : Build) (ω : Env) (pBt : Ptr) (s : State) : Int × State :=
  let s := callVoid (.sqlite3BtreeEnter pBt) s
  let (rc, s) := callStatus ω (.sqlite3BtreeBeginTrans pBt 1) s
  let s := callVoid (.sqlite3BtreeLeave pBt) s
  if rc ≠ SQLITE_OK then
    (-1, printErr b rc s)
  else
    (0, s)

/-- The function `btree_cursor`; the second component of the result is the
cursor object `*pCur` on return.  Its memory is zero-filled by `memset`, and
its `pBtree` member is whatever `sqlite3BtreeCursor` stores there. -/
def btree_cursor (b : Build) (ω : Env) (pBt : Ptr) (iTable : Int) (s : State) :
    (Int × BtCursor) × State :=
  let wrFlag : Int := 1
  let wrFlag := if wrFlag ≠ 0 then BTREE_WRCSR else wrFlag
  let (n, s) := callInt ω .sqlite3BtreeCursorSize s
  let (p, s) := callPtr ω (.malloc n) s
  let (n, s) := callInt ω .sqlite3BtreeCursorSize s
  let s := callVoid (.memset p 0 n) s
  let s := callVoid (.sqlite3_mutex_enter s.sDb.mutex) s
  let s := callVoid (.sqlite3BtreeEnter pBt) s
  let (rc, s) := callStatus ω (.sqlite3BtreeBeginTrans pBt wrFlag) s
  if rc ≠ 0 then
    ((-1, ⟨p, 0⟩), printErr b rc s)
  else
    let (rc, s) :=
      if b.omitSharedCache then (rc, s)
      else callStatus ω (.sqlite3BtreeLockTable pBt iTable (if wrFlag ≠ 0 then 1 else 0)) s
    let (rc, cur, s) :=
      if rc = SQLITE_OK then
        let cur : BtCursor := ⟨p, (ω.out s.trace.length).getD 0⟩
        let (rc, s) := callStatus ω (.sqlite3BtreeCursor pBt iTable wrFlag 0 p) s
        (rc, cur, s)
      else (rc, (⟨p, 0⟩ : BtCursor), s)
    let s := callVoid (.sqlite3BtreeLeave pBt) s
    let s := callVoid (.sqlite3_mutex_leave s.sDb.mutex) s
    if rc ≠ 0 then
      let s := callVoid (.free p) s
      ((-1, cur), printErr b rc s)
    else
      ((SQLITE_OK, cur), { s with stdout := s.stdout ++ [Output.cursorAddr p] })

/-- The function `btree_close_cursor`. -/
def btree_close_cursor (b : Build) (ω : Env) (pCur : BtCursor) (s : State) : Int × State :=
  let (rc, s) :=
    if b.threadsafe then
      let pBt := pCur.pBtree
      let s := callVoid (.sqlite3_mutex_enter s.sDb.mutex) s
      let s := callVoid (.sqlite3BtreeEnter pBt) s
      let (rc, s) := callStatus ω (.sqlite3BtreeCloseCursor pCur.addr) s
      let s := callVoid (.sqlite3BtreeLeave pBt) s
      let s := callVoid (.sqlite3_mutex_leave s.sDb.mutex) s
      (rc, s)
    else
      callStatus ω (.sqlite3BtreeCloseCursor pCur.addr) s
  let s := callVoid (.free pCur.addr) s
  if rc ≠ 0 then
    (-1, printErr b rc s)
  else
    (SQLITE_OK, s)

/-- The function `btree_next`. -/
def btree_next (b : Build) (ω : Env) (pCur : BtCursor) (s : State) : Int × State :=
  let res : Int := 0
  let s := callVoid (.sqlite3BtreeEnter pCur.pBtree) s
  let (rc, s) := callStatus ω (.sqlite3BtreeNext pCur.addr 0) s
  let (res, rc) := if rc = SQLITE_DONE then ((1 : Int), SQLITE_OK) else (res, rc)
  let s := callVoid (.sqlite3BtreeLeave pCur.pBtree) s
  if rc ≠ 0 then
    (-1, printErr b rc s)
  else
    (res, s)

/-- The function `btree_first`. -/
def btree_first (b : Build) (ω : Env) (pCur : BtCursor) (s : State) : Int × State :=
  let res : Int := 0
  let s := callVoid (.sqlite3BtreeEnter pCur.pBtree) s
  let res := (ω.res s.trace.length).getD res
  let (rc, s) := callStatus ω (.sqlite3BtreeFirst pCur.addr) s
  let s := callVoid (.sqlite3BtreeLeave pCur.pBtree) s
  if rc ≠ 0 then
    (-1, printErr b rc s)
  else
    (res, s)

/-- The function `btree_eof`. -/
def btree_eof (ω : Env) (pCur : BtCursor) (s : State) : Int × State :=
  let s := callVoid (.sqlite3BtreeEnter pCur.pBtree) s
  let (rc, s) := callInt ω (.sqlite3BtreeEof pCur.addr) s
  let s := callVoid (.sqlite3BtreeLeave pCur.pBtree) s
  (rc, s)

/-- The function `btree_payload_size`. -/
def btree_payload_size (ω : Env) (pCur : BtCursor) (s : State) : Int × State :=
  let s := callVoid (.sqlite3BtreeEnter pCur.pBtree) s
  let (n, s) := callInt ω (.sqlite3BtreePayloadSize pCur.addr) s
  let s := callVoid (.sqlite3BtreeLeave pCur.pBtree) s
  (u32ToInt n, s)

/-- The function `btree_insert`; `value` is the content of the buffer that the
pointer argument addresses. -/
def btree_insert (b : Build) (ω : Env) (pCur : BtCursor) (key : Int) (value : List Nat)
    (size : Int) (s : State) : Int × State :=
  let s := callVoid (.sqlite3_mutex_enter s.sDb.mutex) s
  let s := callVoid (.sqlite3BtreeEnter pCur.pBtree) s
  let (rc, s) := callStatus ω (.sqlite3BtreeInsert pCur.addr key value size 0 0) s
  let s := callVoid (.sqlite3BtreeLeave pCur.pBtree) s
  let s := callVoid (.sqlite3_mutex_leave s.sDb.mutex) s
  if rc ≠ 0 then
    (-1, printErr b rc s)
  else
    (0, s)

/-- The function `btree_commit`. -/
def btree_commit (ω : Env) (pBt : Ptr) (s : State) : Int × State :=
  callStatus ω (.sqlite3BtreeCommit pBt) s

/-! ## `main` -/

/-- The bytes of a string literal, without the terminating NUL. -/
def cstr (z : String) : List Nat := z.toList.map Char.toNat

/-- The function `strlen` on a string literal. -/
def strlen (z : String) : Nat := ((cstr z).takeWhile (fun c => c ≠ 0)).length

/-- The assignment `buf[i] = v` on a `char` array. -/
def store (buf : List Nat) (i : Nat) (v : Nat) : List Nat := buf.set i (v % 256)

/-- Consecutive stores of the bytes `src` from index `off` on. -/
def storeAll (buf : List Nat) (off : Nat) : List Nat → List Nat
  | [] => buf
  | c :: cs => storeAll (store buf off c) (off + 1) cs

/-- The call `snprintf(buf + off, n, "%s", z)`: at most `n - 1` bytes of `z`
followed by a NUL, nothing when `n` is zero. -/
def snprintf_s (buf : List Nat) (off n : Nat) (z : String) : List Nat :=
  if n = 0 then buf
  else storeAll buf off ((cstr z).take (min (strlen z) (n - 1)) ++ [0])

/-- The part of `main` that builds the record: the array `payload[120]` and the
variable `size` as they are when `btree_open` is called. -/
def mainPayload : List Nat × Int :=
  let size : Int := 0
  let payload : List Nat := List.replicate 120 0
  let payload := store payload size.toNat 3
  let size := size + 1
  let payload := store payload size.toNat 0
  let size := size + 1
  let payload := store payload size.toNat (strlen "Hello!" * 2 + 13)
  let size := size + 1
  let payload := snprintf_s payload size.toNat (120 - size.toNat) "Hello!"
  let size := size + strlen "Hello!"
  (payload, size)

/-- The function `main`, run from the initial state; `pBt0` is the
indeterminate initial value of the local `pBt`.  The wrappers' results are
ignored, as in the source. -/
def main (b : Build) (ω : Env) (pBt0 : Ptr) : Int × State :=
  let iTable : Int := 2
  let payload := mainPayload.1
  let size := mainPayload.2
  let r := btree_open b ω "./test.db" pBt0 init
  let pBt := r.1.2
  let r := btree_cursor b ω pBt iTable r.2
  let pCur := r.1.2
  let r := btree_insert b ω pCur 5 payload size r.2
  let r := btree_close_cursor b ω pCur r.2
  let r := btree_commit ω pBt r.2
  (0, r.2)

/-! ## Observations on traces -/

/-- The events a run added to the trace of its start state. -/
def added (s s' : State) : List Event := s'.trace.drop s.trace.length

/-- The result codes returned by the calls of a trace, in order. -/
def statuses (t : List Event) : List Int := t.filterMap (fun e => e.status)

/-- Every call of the trace that returns a result code returned `SQLITE_OK`. -/
def allOK (t : List Event) : Prop := ∀ rc ∈ statuses t, rc = SQLITE_OK

instance (t : List Event) : Decidable (allOK t) := by
  unfold allOK; infer_instance

/-- Is the call `sqlite3_mutex_enter`? -/
def Call.isMutexEnter : Call → Bool
  | .sqlite3_mutex_enter _ => true
  | _ => false

/-- Is the call `sqlite3_mutex_leave`? -/
def Call.isMutexLeave : Call → Bool
  | .sqlite3_mutex_leave _ => true
  | _ => false

/-- Is the call `sqlite3BtreeEnter`? -/
def Call.isBtreeEnter : Call → Bool
  | .sqlite3BtreeEnter _ => true
  | _ => false

/-- Is the call `sqlite3BtreeLeave`? -/
def Call.isBtreeLeave : Call → Bool
  | .sqlite3BtreeLeave _ => true
  | _ => false

/-- The number of calls of a trace that satisfy `f`. -/
def count (f : Call → Bool) (t : List Event) : Nat := t.countP (fun e => f e.call)

/-- A trace leaves the mutex and the B-tree lock as it found them: as many
`sqlite3_mutex_enter` as `sqlite3_mutex_leave` calls, as many
`sqlite3BtreeEnter` as `sqlite3BtreeLeave` calls. -/
def balanced (t : List Event) : Prop :=
  count Call.isMutexEnter t = count Call.isMutexLeave t ∧
  count Call.isBtreeEnter t = count Call.isBtreeLeave t

instance (t : List Event) : Decidable (balanced t) := by
  unfold balanced; infer_instance

/-- Is the call one of the six B-tree operations of the demonstration: open,
begin transaction, open cursor, insert, close cursor, commit? -/
def Call.isOperation : Call → Bool
  | .sqlite3BtreeOpen _ _ _ _ => true
  | .sqlite3BtreeBeginTrans _ _ => true
  | .sqlite3BtreeCursor _ _ _ _ _ => true
  | .sqlite3BtreeInsert _ _ _ _ _ _ => true
  | .sqlite3BtreeCloseCursor _ => true
  | .sqlite3BtreeCommit _ => true
  | _ => false

/-- The B-tree operations of a trace, in order. -/
def operations (t : List Event) : List Call :=
  (t.map (fun e => e.call)).filter Call.isOperation

/-- The `sqlite3BtreeInsert` calls of a trace as (key, buffer, size). -/
def inserts (t : List Event) : List (Int × List Nat × Int) :=
  t.filterMap (fun e =>
    match e.call with
    | .sqlite3BtreeInsert _ k d n _ _ => some (k, d, n)
    | _ => none)

/-- One step of the life of the connection mutex: `some true` when a mutex is
allocated and not yet freed, `some false` when none is, and `none` as soon as
`sqlite3MutexAlloc` is called while a mutex is live or `sqlite3_mutex_free`
while none is. -/
def liveStep (st : Option Bool) (e : Event) : Option Bool :=
  match st, e.call with
  | some false, .sqlite3MutexAlloc _ => some true
  | some true, .sqlite3MutexAlloc _ => none
  | some true, .sqlite3_mutex_free _ => some false
  | some false, .sqlite3_mutex_free _ => none
  | st, _ => st

/-- The life of the connection mutex after a trace that starts with no mutex
allocated; `none` when some allocation was made while a mutex was live, or some
free while none was. -/
def mutexLive (t : List Event) : Option Bool :=
  t.foldl liveStep (some false)

/-- The number of times the mutex is held after a trace: enters minus
leaves. -/
def holdCount (t : List Event) : Int :=
  (count Call.isMutexEnter t : Int) - (count Call.isMutexLeave t : Int)

/-- Is the call `sqlite3MutexAlloc`? -/
def Call.isMutexAlloc : Call → Bool
  | .sqlite3MutexAlloc _ => true
  | _ => false

/-- Scan of a trace whose first event has position `k`: the pointer returned
by the last `sqlite3MutexAlloc` seen, `p` when there is none. -/
def lastAllocFrom (ω : Env) : List Event → Nat → Ptr → Ptr
  | [], _, p => p
  | e :: t, k, p => lastAllocFrom ω t (k + 1) (if e.call.isMutexAlloc then ω.ptr k else p)

/-- The pointer returned by the last `sqlite3MutexAlloc` of a trace run in the
environment `ω`, `0` when there is none. -/
def lastAlloc (ω : Env) (t : List Event) : Ptr := lastAllocFrom ω t 0 0

/-! ## Sequences of `btree_open` and `btree_close` -/

/-- A call of `btree_open` or `btree_close` with its arguments. -/
inductive HarnessCall where
  | btree_open (zFilename : String) (pBt0 : Ptr)
  | btree_close (pBt : Ptr)
  deriving DecidableEq

/-- One call, with the value it returns. -/
def step (b : Build) (ω : Env) (c : HarnessCall) (s : State) : Int × State :=
  match c with
  | .btree_open z p =>
    ((Sqlite3Btree.btree_open b ω z p s).1.1, (Sqlite3Btree.btree_open b ω z p s).2)
  | .btree_close p => Sqlite3Btree.btree_close b ω p s

/-- A sequence of calls run from the state `s`: the log of the calls with
their results, and the final state. -/
def exec (b : Build) (ω : Env) (cs : List HarnessCall) (s : State) :
    List (HarnessCall × Int) × State :=
  cs.foldl (fun acc c => (acc.1 ++ [(c, (step b ω c acc.2).1)], (step b ω c acc.2).2)) ([], s)

/-- Is the call a `btree_open`? -/
def HarnessCall.isOpen : HarnessCall → Bool
  | .btree_open _ _ => true
  | .btree_close _ => false

/-- The number of `btree_open` calls of a log that returned 0. -/
def opensOK (log : List (HarnessCall × Int)) : Nat :=
  log.countP (fun x => x.1.isOpen && decide (x.2 = 0))

/-- The number of `btree_close` calls of a log that returned 0. -/
def closesOK (log : List (HarnessCall × Int)) : Nat :=
  log.countP (fun x => !x.1.isOpen && decide (x.2 = 0))

/-- The number of `btree_open` calls of a log, whatever they returned. -/
def opensAll (log : List (HarnessCall × Int)) : Nat :=
  log.countP (fun x => x.1.isOpen)

/-! ## Sample environments -/

/-- The environment in which every call returns 0 (`SQLITE_OK`), pointers are
the position of the call plus one, and nothing is stored through
out-parameters except a pointer equal to the position plus one. -/
def envOK : Env := ⟨fun _ => 0, fun k => k + 1, fun k => some (k + 1), fun _ => none⟩

/-- The environment that differs from `envOK` in that the call at position
`k` returns `rc`. -/
def envFail (k : Nat) (rc : Int) : Env :=
  { envOK with ret := fun i => if i = k then rc else 0 }

/-- The run `btree_open("./test.db", &pBt)` from the initial state in which
every call succeeds except the twelfth of the program, which returns
`SQLITE_BUSY` (5). -/
def busyOpen : (Int × Ptr) × State :=
  btree_open defaultBuild (envFail 11 5) "./test.db" 0 init

/-- The run `btree_cursor(pBt, 2, &pCur)` that follows `busyOpen`: its
`sqlite3BtreeBeginTrans`, the twelfth call of the program, returns
`SQLITE_BUSY` (5). -/
def busyCursor : (Int × BtCursor) × State :=
  btree_cursor defaultBuild (envFail 11 5) busyOpen.1.2 2 busyOpen.2

/-- The run of the single call `btree_open("./test.db", &pBt)` from the initial
state in which `sqlite3BtreeOpen`, the fourth call of the program, returns
`SQLITE_CANTOPEN` (14). -/
def cantOpen : List (HarnessCall × Int) × State :=
  exec defaultBuild (envFail 3 14) [.btree_open "./test.db" 0] init

/-- A wrapper result `r` reports the outcome of the calls of the trace `t`:
it is 0 exactly when every result code of `t` is `SQLITE_OK`, and -1
otherwise. -/
def reportsErrors (r : Int) (t : List Event) : Prop :=
  (r = 0 ↔ allOK t) ∧ (r = 0 ∨ r = -1)

/-- No call that returns a result code follows one that failed: every result
code of the trace but the last is `SQLITE_OK`. -/
def stopsAtFailure (t : List Event) : Prop :=
  ∀ rc ∈ (statuses t).dropLast, rc = SQLITE_OK

/-- The relation between the reference count and the connection mutex: a mutex
is live, held once and stored in `sDb.mutex` when `nRefSqlite3` is at least 1;
no mutex is live or held and `sDb.mutex` is null otherwise. -/
def MutexInv (ω : Env) (s : State) : Prop :=
  mutexLive s.trace = some (decide (1 ≤ s.nRefSqlite3)) ∧
  holdCount s.trace = (if 1 ≤ s.nRefSqlite3 then 1 else 0) ∧
  s.sDb.mutex = (if 1 ≤ s.nRefSqlite3 then lastAlloc ω s.trace else 0)

/-! ## Theorems on the error strings -/

/-- The low byte selects the table entry for every code that is not one of the
three special codes. -/
theorem sqlite3ErrStr_default (b : Build) (rc : Int)
    (h1 : rc ≠ 516) (h2 : rc ≠ 100) (h3 : rc ≠ 101) :
    sqlite3ErrStr b rc =
      if rc % 256 < ArraySize b ∧ aMsgAt b (rc % 256) ≠ none then aMsgAt b (rc % 256)
      else some "unknown error" := by
  have hp : 0 ≤ rc % 256 := Int.emod_nonneg rc (by norm_num)
  simp only [sqlite3ErrStr, SQLITE_ABORT_ROLLBACK, SQLITE_ROW, SQLITE_DONE, h1, h2, h3,
    if_false, hp, true_and]

/-- The non-null entries of the default table, none of which is the fallback
string. -/
theorem aMsgAt_default (p : Int) (h0 : 0 ≤ p) (h29 : p < 29)
    (h : p ≠ 2 ∧ p ≠ 16 ∧ p ≠ 22 ∧ p ≠ 24) :
    ∃ z, aMsgAt defaultBuild p = some z ∧ z ≠ "unknown error" := by
  obtain ⟨ha, hb, hc, hd⟩ := h
  interval_cases p <;> first | omega | exact ⟨_, rfl, by decide⟩

/-- The null entries of the default table. -/
theorem aMsgAt_default_null (p : Int) (h : p = 2 ∨ p = 16 ∨ p = 22 ∨ p = 24) :
    aMsgAt defaultBuild p = none := by
  rcases h with h | h | h | h <;> subst h <;> rfl

/-- C5: in the default build `sqlite3ErrStr` returns a non-null string for every
`rc`; the string is "unknown error" exactly when `rc` is none of 516, 100, 101
and its low byte `p = rc & 0xff` is at least 29 or one of 2, 16, 22, 24; in every
other case it is the message of the special code or the non-null entry
`aMsg[p]`. -/
theorem sqlite3ErrStr_never_null (rc : Int) :
    (∃ z, sqlite3ErrStr defaultBuild rc = some z) ∧
    (sqlite3ErrStr defaultBuild rc = some "unknown error" ↔
      rc ≠ SQLITE_ABORT_ROLLBACK ∧ rc ≠ SQLITE_ROW ∧ rc ≠ SQLITE_DONE ∧
        (29 ≤ rc % 256 ∨ rc % 256 = 2 ∨ rc % 256 = 16 ∨ rc % 256 = 22 ∨ rc % 256 = 24)) ∧
    (sqlite3ErrStr defaultBuild rc = some "unknown error" ∨
      (rc = SQLITE_ABORT_ROLLBACK ∧ sqlite3ErrStr defaultBuild rc = some "abort due to ROLLBACK") ∨
      (rc = SQLITE_ROW ∧ sqlite3ErrStr defaultBuild rc = some "another row available") ∨
      (rc = SQLITE_DONE ∧ sqlite3ErrStr defaultBuild rc = some "no more rows available") ∨
      (sqlite3ErrStr defaultBuild rc = aMsgAt defaultBuild (rc % 256) ∧
        aMsgAt defaultBuild (rc % 256) ≠ none)) := by
  simp only [SQLITE_ABORT_ROLLBACK, SQLITE_ROW, SQLITE_DONE]
  by_cases h1 : rc = 516
  · subst h1; refine ⟨⟨_, rfl⟩, by decide, Or.inr (Or.inl ⟨rfl, rfl⟩)⟩
  by_cases h2 : rc = 100
  · subst h2; refine ⟨⟨_, rfl⟩, by decide, Or.inr (Or.inr (Or.inl ⟨rfl, rfl⟩))⟩
  by_cases h3 : rc = 101
  · subst h3; refine ⟨⟨_, rfl⟩, by decide, Or.inr (Or.inr (Or.inr (Or.inl ⟨rfl, rfl⟩)))⟩
  have hp : 0 ≤ rc % 256 := Int.emod_nonneg rc (by norm_num)
  rw [sqlite3ErrStr_default defaultBuild rc h1 h2 h3]
  have hsize : ArraySize defaultBuild = 29 := rfl
  rw [hsize]
  generalize rc % 256 = p at hp
  by_cases h29 : p < 29
  · by_cases hn : p = 2 ∨ p = 16 ∨ p = 22 ∨ p = 24
    · have hnull := aMsgAt_default_null p hn
      simp only [hnull, ne_eq, not_true_eq_false, and_false, if_false]
      exact ⟨⟨_, rfl⟩, by simp [h1, h2, h3, hn], Or.inl trivial⟩
    · have hn' : p ≠ 2 ∧ p ≠ 16 ∧ p ≠ 22 ∧ p ≠ 24 := by
        simpa only [not_or] using hn
      obtain ⟨z, hz, hzu⟩ := aMsgAt_default p hp h29 hn'
      have hne : aMsgAt defaultBuild p ≠ none := by rw [hz]; simp
      rw [if_pos ⟨h29, hne⟩]
      refine ⟨⟨z, hz⟩, ?_, Or.inr (Or.inr (Or.inr (Or.inr ⟨rfl, hne⟩)))⟩
      rw [hz]
      constructor
      · intro h; exact absurd (Option.some.inj h) hzu
      · rintro ⟨-, -, -, h⟩
        rcases h with h | h
        · omega
        · exact absurd h hn
  · have hge : 29 ≤ p := by omega
    rw [if_neg (fun h => h29 h.1)]
    exact ⟨⟨_, rfl⟩, by simp [h1, h2, h3, hge], Or.inl rfl⟩

/-- C6: `sqlite3ErrStr` maps `SQLITE_OK` and the seven error codes of the
specification's error kinds (14, 10, 11, 5, 12, 19, 21) to eight pairwise
distinct strings, none of which is "unknown error". -/
theorem sqlite3ErrStr_distinguishes_kinds (b : Build) :
    (([0, 14, 10, 11, 5, 12, 19, 21] : List Int).map (sqlite3ErrStr b)).Nodup ∧
    ∀ rc ∈ ([0, 14, 10, 11, 5, 12, 19, 21] : List Int),
      ∃ z, sqlite3ErrStr b rc = some z ∧ z ≠ "unknown error" := by
  rcases b with ⟨_ | _, _ | _, _ | _⟩ <;> decide

/-! ## Traces of the wrappers -/

@[simp] theorem emit_trace (c : Call) (st : Option Int) (s : State) :
    (emit c st s).trace = s.trace ++ [⟨c, st⟩] := rfl

@[simp] theorem emit_nRef (c : Call) (st : Option Int) (s : State) :
    (emit c st s).nRefSqlite3 = s.nRefSqlite3 := rfl

@[simp] theorem emit_sDb (c : Call) (st : Option Int) (s : State) :
    (emit c st s).sDb = s.sDb := rfl

@[simp] theorem printErr_trace (b : Build) (rc : Int) (s : State) :
    (printErr b rc s).trace = s.trace := rfl

@[simp] theorem printErr_nRef (b : Build) (rc : Int) (s : State) :
    (printErr b rc s).nRefSqlite3 = s.nRefSqlite3 := rfl

@[simp] theorem printErr_sDb (b : Build) (rc : Int) (s : State) :
    (printErr b rc s).sDb = s.sDb := rfl

theorem added_append (s s' : State) (l : List Event) (h : s'.trace = s.trace ++ l) :
    added s s' = l := by
  simp [added, h]

/-- C4: `btree_next` makes one `sqlite3BtreeNext` call; with `rc` the result
code of that call, it returns 1 if and only if `rc` is `SQLITE_DONE`, 0 if and
only if `rc` is `SQLITE_OK`, and -1 for every other `rc`; it does not return -1
when `rc` is `SQLITE_DONE`. -/
theorem btree_next_eof_is_not_an_error (b : Build) (ω : Env) (pCur : BtCursor) (s : State) :
    ∃ rc : Int, rc = ω.ret (s.trace.length + 1) ∧
      added s (btree_next b ω pCur s).2 =
        [⟨.sqlite3BtreeEnter pCur.pBtree, none⟩, ⟨.sqlite3BtreeNext pCur.addr 0, some rc⟩,
          ⟨.sqlite3BtreeLeave pCur.pBtree, none⟩] ∧
      ((btree_next b ω pCur s).1 = 1 ↔ rc = SQLITE_DONE) ∧
      ((btree_next b ω pCur s).1 = 0 ↔ rc = SQLITE_OK) ∧
      ((btree_next b ω pCur s).1 = -1 ↔ (rc ≠ SQLITE_DONE ∧ rc ≠ SQLITE_OK)) ∧
      ¬ (rc = SQLITE_DONE ∧ (btree_next b ω pCur s).1 = -1) := by
  refine ⟨_, rfl, ?_⟩
  by_cases hd : ω.ret (s.trace.length + 1) = 101
  · refine ⟨?_, ?_⟩
    · apply added_append
      simp [btree_next, callVoid, callStatus, SQLITE_DONE, SQLITE_OK, hd]
    · simp [btree_next, callVoid, callStatus, SQLITE_DONE, SQLITE_OK, hd]
  · by_cases h0 : ω.ret (s.trace.length + 1) = 0
    · refine ⟨?_, ?_⟩
      · apply added_append
        simp [btree_next, callVoid, callStatus, SQLITE_DONE, SQLITE_OK, h0]
      · simp [btree_next, callVoid, callStatus, SQLITE_DONE, SQLITE_OK, h0]
    · refine ⟨?_, ?_⟩
      · apply added_append
        simp [btree_next, callVoid, callStatus, SQLITE_DONE, SQLITE_OK, hd, h0]
      · simp [btree_next, callVoid, callStatus, SQLITE_DONE, SQLITE_OK, hd, h0]

/-! ## Error reporting -/

theorem btree_open_reports (b : Build) (ω : Env) (z : String) (pBt0 : Ptr) (s : State) :
    reportsErrors (btree_open b ω z pBt0 s).1.1 (added s (btree_open b ω z pBt0 s).2) := by
  by_cases h1 : s.nRefSqlite3 + 1 = 1 <;>
  by_cases h : ω.ret (s.trace.length + 1 + 1 + 1) = 0 <;>
  by_cases h' : ω.ret s.trace.length = 0 <;>
  simp [reportsErrors, allOK, statuses, added, btree_open, callVoid, callStatus, callPtr,
    SQLITE_OK, h1, h, h', List.filterMap_cons]

theorem btree_close_reports (b : Build) (ω : Env) (pBt : Ptr) (s : State) :
    reportsErrors (btree_close b ω pBt s).1 (added s (btree_close b ω pBt s).2) := by
  by_cases h1 : s.nRefSqlite3 - 1 = 0 <;>
  by_cases h : ω.ret s.trace.length = 0 <;>
  simp [reportsErrors, allOK, statuses, added, btree_close, callVoid, callStatus,
    SQLITE_OK, h1, h, List.filterMap_cons]

theorem btree_begin_transaction_reports (b : Build) (ω : Env) (pBt : Ptr) (s : State) :
    reportsErrors (btree_begin_transaction b ω pBt s).1
      (added s (btree_begin_transaction b ω pBt s).2) := by
  by_cases h : ω.ret (s.trace.length + 1) = 0 <;>
  simp [reportsErrors, allOK, statuses, added, btree_begin_transaction, callVoid, callStatus,
    SQLITE_OK, h, List.filterMap_cons]

theorem btree_cursor_reports (b : Build) (ω : Env) (pBt : Ptr) (iTable : Int) (s : State) :
    reportsErrors (btree_cursor b ω pBt iTable s).1.1
        (added s (btree_cursor b ω pBt iTable s).2) ∧
      stopsAtFailure (added s (btree_cursor b ω pBt iTable s).2) := by
  rcases b with ⟨lfs, _ | _, ts⟩ <;>
  by_cases h : ω.ret (s.trace.length + 1 + 1 + 1 + 1 + 1 + 1) = 0 <;>
  by_cases h' : ω.ret (s.trace.length + 1 + 1 + 1 + 1 + 1 + 1 + 1) = 0 <;>
  by_cases h2 : ω.ret (s.trace.length + 1 + 1 + 1 + 1 + 1 + 1 + 1 + 1) = 0 <;>
  simp [reportsErrors, stopsAtFailure, allOK, statuses, added, btree_cursor, callVoid,
    callStatus, callPtr, callInt, SQLITE_OK, BTREE_WRCSR, h, h', h2, List.filterMap_cons]

theorem btree_close_cursor_reports (b : Build) (ω : Env) (pCur : BtCursor) (s : State) :
    reportsErrors (btree_close_cursor b ω pCur s).1
      (added s (btree_close_cursor b ω pCur s).2) := by
  rcases b with ⟨lfs, sc, _ | _⟩ <;>
  by_cases h : ω.ret (s.trace.length + 1 + 1) = 0 <;>
  by_cases h' : ω.ret s.trace.length = 0 <;>
  simp [reportsErrors, allOK, statuses, added, btree_close_cursor, callVoid, callStatus,
    SQLITE_OK, h, h', List.filterMap_cons]

theorem btree_insert_reports (b : Build) (ω : Env) (pCur : BtCursor) (key : Int)
    (value : List Nat) (size : Int) (s : State) :
    reportsErrors (btree_insert b ω pCur key value size s).1
      (added s (btree_insert b ω pCur key value size s).2) := by
  by_cases h : ω.ret (s.trace.length + 1 + 1) = 0 <;>
  simp [reportsErrors, allOK, statuses, added, btree_insert, callVoid, callStatus,
    SQLITE_OK, h, List.filterMap_cons]

theorem btree_commit_reports (ω : Env) (pBt : Ptr) (s : State) :
    statuses (added s (btree_commit ω pBt s).2) = [(btree_commit ω pBt s).1] := by
  simp [statuses, added, btree_commit, callStatus, List.filterMap_cons]

/-- C3: for every outcome of the engine calls, each of `btree_open`,
`btree_close`, `btree_begin_transaction`, `btree_cursor`, `btree_close_cursor`
and `btree_insert` returns 0 if and only if every result code returned by the
calls it made is `SQLITE_OK`, and -1 otherwise; `btree_cursor` makes no further
result-code call after one has failed; `btree_commit` returns the result code
of its one engine call unchanged. -/
theorem wrappers_report_engine_errors (b : Build) (ω : Env) (s : State) (z : String)
    (pBt0 pBt : Ptr) (iTable : Int) (pCur : BtCursor) (key : Int) (value : List Nat)
    (size : Int) :
    reportsErrors (btree_open b ω z pBt0 s).1.1 (added s (btree_open b ω z pBt0 s).2) ∧
    reportsErrors (btree_close b ω pBt s).1 (added s (btree_close b ω pBt s).2) ∧
    reportsErrors (btree_begin_transaction b ω pBt s).1
      (added s (btree_begin_transaction b ω pBt s).2) ∧
    reportsErrors (btree_cursor b ω pBt iTable s).1.1
      (added s (btree_cursor b ω pBt iTable s).2) ∧
    stopsAtFailure (added s (btree_cursor b ω pBt iTable s).2) ∧
    reportsErrors (btree_close_cursor b ω pCur s).1
      (added s (btree_close_cursor b ω pCur s).2) ∧
    reportsErrors (btree_insert b ω pCur key value size s).1
      (added s (btree_insert b ω pCur key value size s).2) ∧
    statuses (added s (btree_commit ω pBt s).2) = [(btree_commit ω pBt s).1] :=
  ⟨btree_open_reports b ω z pBt0 s, btree_close_reports b ω pBt s,
    btree_begin_transaction_reports b ω pBt s, (btree_cursor_reports b ω pBt iTable s).1,
    (btree_cursor_reports b ω pBt iTable s).2, btree_close_cursor_reports b ω pCur s,
    btree_insert_reports b ω pCur key value size s, btree_commit_reports ω pBt s⟩

/-! ## Acquire and release -/

/-- Every wrapper other than `btree_cursor` leaves the connection mutex and the
B-tree lock as it found them, whatever the engine returns. -/
theorem wrappers_balanced (b : Build) (ω : Env) (s : State) (pBt : Ptr) (pCur : BtCursor)
    (key : Int) (value : List Nat) (size : Int) :
    balanced (added s (btree_begin_transaction b ω pBt s).2) ∧
    balanced (added s (btree_close_cursor b ω pCur s).2) ∧
    balanced (added s (btree_next b ω pCur s).2) ∧
    balanced (added s (btree_first b ω pCur s).2) ∧
    balanced (added s (btree_eof ω pCur s).2) ∧
    balanced (added s (btree_payload_size ω pCur s).2) ∧
    balanced (added s (btree_insert b ω pCur key value size s).2) := by
  refine ⟨?_, ?_, ?_, ?_, ?_, ?_, ?_⟩
  · by_cases h : ω.ret (s.trace.length + 1) = 0 <;>
    simp [balanced, count, added, btree_begin_transaction, callVoid, callStatus, SQLITE_OK, h,
      Call.isMutexEnter, Call.isMutexLeave, Call.isBtreeEnter, Call.isBtreeLeave,
      List.countP_cons]
  · rcases b with ⟨lfs, sc, _ | _⟩ <;>
    by_cases h : ω.ret (s.trace.length + 1 + 1) = 0 <;>
    by_cases h' : ω.ret s.trace.length = 0 <;>
    simp [balanced, count, added, btree_close_cursor, callVoid, callStatus, SQLITE_OK, h, h',
      Call.isMutexEnter, Call.isMutexLeave, Call.isBtreeEnter, Call.isBtreeLeave,
      List.countP_cons]
  · by_cases hd : ω.ret (s.trace.length + 1) = 101 <;>
    by_cases h : ω.ret (s.trace.length + 1) = 0 <;>
    simp [balanced, count, added, btree_next, callVoid, callStatus, SQLITE_OK, SQLITE_DONE,
      h, hd, Call.isMutexEnter, Call.isMutexLeave, Call.isBtreeEnter, Call.isBtreeLeave,
      List.countP_cons]
  · by_cases h : ω.ret (s.trace.length + 1) = 0 <;>
    simp [balanced, count, added, btree_first, callVoid, callStatus, SQLITE_OK, h,
      Call.isMutexEnter, Call.isMutexLeave, Call.isBtreeEnter, Call.isBtreeLeave,
      List.countP_cons]
  · simp [balanced, count, added, btree_eof, callVoid, callInt,
      Call.isMutexEnter, Call.isMutexLeave, Call.isBtreeEnter, Call.isBtreeLeave,
      List.countP_cons]
  · simp [balanced, count, added, btree_payload_size, callVoid, callInt,
      Call.isMutexEnter, Call.isMutexLeave, Call.isBtreeEnter, Call.isBtreeLeave,
      List.countP_cons]
  · by_cases h : ω.ret (s.trace.length + 1 + 1) = 0 <;>
    simp [balanced, count, added, btree_insert, callVoid, callStatus, SQLITE_OK, h,
      Call.isMutexEnter, Call.isMutexLeave, Call.isBtreeEnter, Call.isBtreeLeave,
      List.countP_cons]

/-- The wrapper `btree_cursor` is balanced exactly when `sqlite3BtreeBeginTrans`
(the seventh call it makes) succeeds: on the early return after a failed
`sqlite3BtreeBeginTrans` neither `sqlite3BtreeLeave` nor
`sqlite3_mutex_leave` is called. -/
theorem btree_cursor_balanced_iff (b : Build) (ω : Env) (pBt : Ptr) (iTable : Int)
    (s : State) :
    balanced (added s (btree_cursor b ω pBt iTable s).2) ↔
      ω.ret (s.trace.length + 6) = SQLITE_OK := by
  rcases b with ⟨lfs, _ | _, ts⟩ <;>
  by_cases h : ω.ret (s.trace.length + 6) = 0 <;>
  by_cases h' : ω.ret (s.trace.length + 7) = 0 <;>
  by_cases h2 : ω.ret (s.trace.length + 8) = 0 <;>
  simp [balanced, count, added, btree_cursor, callVoid, callStatus, callPtr, callInt,
    SQLITE_OK, BTREE_WRCSR, h, h', h2, Call.isMutexEnter, Call.isMutexLeave,
    Call.isBtreeEnter, Call.isBtreeLeave, List.countP_cons, add_assoc]

/-- C8 (failing input): after a successful `btree_open`, a `btree_cursor` whose
`sqlite3BtreeBeginTrans` returns `SQLITE_BUSY` (5) returns -1 having called
`sqlite3_mutex_enter` and `sqlite3BtreeEnter` once each and
`sqlite3_mutex_leave` and `sqlite3BtreeLeave` not at all. -/
theorem btree_cursor_early_return_keeps_locks :
    busyOpen.1.1 = 0 ∧ busyCursor.1.1 = -1 ∧
    statuses (added busyOpen.2 busyCursor.2) = [5] ∧
    count Call.isMutexEnter (added busyOpen.2 busyCursor.2) = 1 ∧
    count Call.isMutexLeave (added busyOpen.2 busyCursor.2) = 0 ∧
    count Call.isBtreeEnter (added busyOpen.2 busyCursor.2) = 1 ∧
    count Call.isBtreeLeave (added busyOpen.2 busyCursor.2) = 0 ∧
    ¬ balanced (added busyOpen.2 busyCursor.2) := by
  decide

/-! ## The run of `main` -/

theorem trace_eq_append_added {s s' : State} (h : s.trace <+: s'.trace) :
    s'.trace = s.trace ++ added s s' := by
  obtain ⟨l, hl⟩ := h
  rw [added_append s s' l hl.symm, hl]

theorem btree_open_trace (b : Build) (ω : Env) (z : String) (pBt0 : Ptr) (s : State) :
    (btree_open b ω z pBt0 s).2.trace = s.trace ++ added s (btree_open b ω z pBt0 s).2 := by
  apply trace_eq_append_added
  by_cases h1 : s.nRefSqlite3 + 1 = 1 <;>
  by_cases h : ω.ret (s.trace.length + 1 + 1 + 1) = 0 <;>
  by_cases h' : ω.ret s.trace.length = 0 <;>
  simp [btree_open, callVoid, callStatus, callPtr, SQLITE_OK, h1, h, h']

theorem btree_cursor_trace (b : Build) (ω : Env) (pBt : Ptr) (iTable : Int) (s : State) :
    (btree_cursor b ω pBt iTable s).2.trace =
      s.trace ++ added s (btree_cursor b ω pBt iTable s).2 := by
  apply trace_eq_append_added
  rcases b with ⟨lfs, _ | _, ts⟩ <;>
  by_cases h : ω.ret (s.trace.length + 1 + 1 + 1 + 1 + 1 + 1) = 0 <;>
  by_cases h' : ω.ret (s.trace.length + 1 + 1 + 1 + 1 + 1 + 1 + 1) = 0 <;>
  by_cases h2 : ω.ret (s.trace.length + 1 + 1 + 1 + 1 + 1 + 1 + 1 + 1) = 0 <;>
  simp [btree_cursor, callVoid, callStatus, callPtr, callInt, SQLITE_OK, BTREE_WRCSR,
    h, h', h2]

theorem btree_insert_trace (b : Build) (ω : Env) (pCur : BtCursor) (key : Int)
    (value : List Nat) (size : Int) (s : State) :
    (btree_insert b ω pCur key value size s).2.trace =
      s.trace ++ added s (btree_insert b ω pCur key value size s).2 := by
  apply trace_eq_append_added
  by_cases h : ω.ret (s.trace.length + 1 + 1) = 0 <;>
  simp [btree_insert, callVoid, callStatus, SQLITE_OK, h]

theorem btree_close_cursor_trace (b : Build) (ω : Env) (pCur : BtCursor) (s : State) :
    (btree_close_cursor b ω pCur s).2.trace =
      s.trace ++ added s (btree_close_cursor b ω pCur s).2 := by
  apply trace_eq_append_added
  rcases b with ⟨lfs, sc, _ | _⟩ <;>
  by_cases h : ω.ret (s.trace.length + 1 + 1) = 0 <;>
  by_cases h' : ω.ret s.trace.length = 0 <;>
  simp [btree_close_cursor, callVoid, callStatus, SQLITE_OK, h, h']

theorem btree_commit_trace (ω : Env) (pBt : Ptr) (s : State) :
    (btree_commit ω pBt s).2.trace = s.trace ++ added s (btree_commit ω pBt s).2 := by
  apply trace_eq_append_added
  simp [btree_commit, callStatus]

/-- The operations of `btree_open`: one `sqlite3BtreeOpen`, whatever it
returns. -/
theorem btree_open_operations (b : Build) (ω : Env) (z : String) (pBt0 : Ptr) (s : State) :
    operations (added s (btree_open b ω z pBt0 s).2) =
      [.sqlite3BtreeOpen (btree_open b ω z pBt0 s).2.sDb.pVfs z 0 openFlags] := by
  by_cases h1 : s.nRefSqlite3 + 1 = 1 <;>
  by_cases h : ω.ret (s.trace.length + 1 + 1 + 1) = 0 <;>
  by_cases h' : ω.ret s.trace.length = 0 <;>
  simp [operations, added, btree_open, callVoid, callStatus, callPtr, SQLITE_OK, h1, h, h',
    Call.isOperation, List.filter_cons]

/-- The operations of a `btree_cursor` all of whose calls succeed: begin a write
transaction, then open a write cursor on the table. -/
theorem btree_cursor_operations (b : Build) (ω : Env) (pBt : Ptr) (iTable : Int) (s : State)
    (hok : allOK (added s (btree_cursor b ω pBt iTable s).2)) :
    operations (added s (btree_cursor b ω pBt iTable s).2) =
      [.sqlite3BtreeBeginTrans pBt BTREE_WRCSR,
       .sqlite3BtreeCursor pBt iTable BTREE_WRCSR 0 (btree_cursor b ω pBt iTable s).1.2.addr] := by
  revert hok
  rcases b with ⟨lfs, _ | _, ts⟩ <;>
  by_cases h : ω.ret (s.trace.length + 1 + 1 + 1 + 1 + 1 + 1) = 0 <;>
  by_cases h' : ω.ret (s.trace.length + 1 + 1 + 1 + 1 + 1 + 1 + 1) = 0 <;>
  by_cases h2 : ω.ret (s.trace.length + 1 + 1 + 1 + 1 + 1 + 1 + 1 + 1) = 0 <;>
  simp [operations, allOK, statuses, added, btree_cursor, callVoid, callStatus, callPtr,
    callInt, SQLITE_OK, BTREE_WRCSR, h, h', h2, Call.isOperation, List.filter_cons,
    List.filterMap_cons]

/-- The operations of `btree_insert`: one `sqlite3BtreeInsert`. -/
theorem btree_insert_operations (b : Build) (ω : Env) (pCur : BtCursor) (key : Int)
    (value : List Nat) (size : Int) (s : State) :
    operations (added s (btree_insert b ω pCur key value size s).2) =
      [.sqlite3BtreeInsert pCur.addr key value size 0 0] := by
  by_cases h : ω.ret (s.trace.length + 1 + 1) = 0 <;>
  simp [operations, added, btree_insert, callVoid, callStatus, SQLITE_OK, h,
    Call.isOperation, List.filter_cons]

/-- The operations of `btree_close_cursor`: one `sqlite3BtreeCloseCursor`. -/
theorem btree_close_cursor_operations (b : Build) (ω : Env) (pCur : BtCursor) (s : State) :
    operations (added s (btree_close_cursor b ω pCur s).2) =
      [.sqlite3BtreeCloseCursor pCur.addr] := by
  rcases b with ⟨lfs, sc, _ | _⟩ <;>
  by_cases h : ω.ret (s.trace.length + 1 + 1) = 0 <;>
  by_cases h' : ω.ret s.trace.length = 0 <;>
  simp [operations, added, btree_close_cursor, callVoid, callStatus, SQLITE_OK, h, h',
    Call.isOperation, List.filter_cons]

/-- The operations of `btree_commit`: one `sqlite3BtreeCommit`. -/
theorem btree_commit_operations (ω : Env) (pBt : Ptr) (s : State) :
    operations (added s (btree_commit ω pBt s).2) = [.sqlite3BtreeCommit pBt] := by
  simp [operations, added, btree_commit, callStatus, Call.isOperation, List.filter_cons]

theorem operations_append (t t' : List Event) :
    operations (t ++ t') = operations t ++ operations t' := by
  simp [operations]

theorem allOK_append (t t' : List Event) : allOK (t ++ t') ↔ allOK t ∧ allOK t' := by
  simp only [allOK, statuses, List.filterMap_append, List.mem_append]
  constructor
  · intro h; exact ⟨fun rc hrc => h rc (Or.inl hrc), fun rc hrc => h rc (Or.inr hrc)⟩
  · rintro ⟨h1, h2⟩ rc (hrc | hrc)
    · exact h1 rc hrc
    · exact h2 rc hrc

/-- The trace of `main` is the concatenation of the traces of its five wrapper
calls. -/
theorem main_trace (b : Build) (ω : Env) (pBt0 : Ptr) :
    let r1 := btree_open b ω "./test.db" pBt0 init
    let r2 := btree_cursor b ω r1.1.2 2 r1.2
    let r3 := btree_insert b ω r2.1.2 5 mainPayload.1 mainPayload.2 r2.2
    let r4 := btree_close_cursor b ω r2.1.2 r3.2
    let r5 := btree_commit ω r1.1.2 r4.2
    (main b ω pBt0).2.trace =
      added init r1.2 ++ added r1.2 r2.2 ++ added r2.2 r3.2 ++ added r3.2 r4.2 ++
        added r4.2 r5.2 := by
  intro r1 r2 r3 r4 r5
  have e : (main b ω pBt0).2 = r5.2 := rfl
  rw [e, btree_commit_trace, btree_close_cursor_trace, btree_insert_trace, btree_cursor_trace,
    btree_open_trace]
  rfl

theorem inserts_append (t t' : List Event) : inserts (t ++ t') = inserts t ++ inserts t' := by
  simp [inserts]

theorem btree_open_inserts (b : Build) (ω : Env) (z : String) (pBt0 : Ptr) (s : State) :
    inserts (added s (btree_open b ω z pBt0 s).2) = [] := by
  by_cases h1 : s.nRefSqlite3 + 1 = 1 <;>
  by_cases h : ω.ret (s.trace.length + 1 + 1 + 1) = 0 <;>
  by_cases h' : ω.ret s.trace.length = 0 <;>
  simp [inserts, added, btree_open, callVoid, callStatus, callPtr, SQLITE_OK, h1, h, h',
    List.filterMap_cons]

theorem btree_cursor_inserts (b : Build) (ω : Env) (pBt : Ptr) (iTable : Int) (s : State) :
    inserts (added s (btree_cursor b ω pBt iTable s).2) = [] := by
  rcases b with ⟨lfs, _ | _, ts⟩ <;>
  by_cases h : ω.ret (s.trace.length + 1 + 1 + 1 + 1 + 1 + 1) = 0 <;>
  by_cases h' : ω.ret (s.trace.length + 1 + 1 + 1 + 1 + 1 + 1 + 1) = 0 <;>
  by_cases h2 : ω.ret (s.trace.length + 1 + 1 + 1 + 1 + 1 + 1 + 1 + 1) = 0 <;>
  simp [inserts, added, btree_cursor, callVoid, callStatus, callPtr, callInt, SQLITE_OK,
    BTREE_WRCSR, h, h', h2, List.filterMap_cons]

theorem btree_insert_inserts (b : Build) (ω : Env) (pCur : BtCursor) (key : Int)
    (value : List Nat) (size : Int) (s : State) :
    inserts (added s (btree_insert b ω pCur key value size s).2) = [(key, value, size)] := by
  by_cases h : ω.ret (s.trace.length + 1 + 1) = 0 <;>
  simp [inserts, added, btree_insert, callVoid, callStatus, SQLITE_OK, h, List.filterMap_cons]

theorem btree_close_cursor_inserts (b : Build) (ω : Env) (pCur : BtCursor) (s : State) :
    inserts (added s (btree_close_cursor b ω pCur s).2) = [] := by
  rcases b with ⟨lfs, sc, _ | _⟩ <;>
  by_cases h : ω.ret (s.trace.length + 1 + 1) = 0 <;>
  by_cases h' : ω.ret s.trace.length = 0 <;>
  simp [inserts, added, btree_close_cursor, callVoid, callStatus, SQLITE_OK, h, h',
    List.filterMap_cons]

theorem btree_commit_inserts (ω : Env) (pBt : Ptr) (s : State) :
    inserts (added s (btree_commit ω pBt s).2) = [] := by
  simp [inserts, added, btree_commit, callStatus, List.filterMap_cons]

/-- Whatever the engine returns, `main` calls `sqlite3BtreeInsert` once, with
key 5, the buffer `payload` and the size it computed. -/
theorem main_inserts (b : Build) (ω : Env) (pBt0 : Ptr) :
    inserts (main b ω pBt0).2.trace = [(5, mainPayload.1, mainPayload.2)] := by
  have h := main_trace b ω pBt0
  simp only at h
  rw [h]
  simp only [inserts_append, btree_open_inserts, btree_cursor_inserts, btree_insert_inserts,
    btree_close_cursor_inserts, btree_commit_inserts, List.nil_append, List.append_nil]

/-- The result of the `btree_open` of `main`: the pointer stored by
`sqlite3BtreeOpen`, which is the fourth call of the run, and the VFS returned
by the first. -/
theorem main_open_result (b : Build) (ω : Env) (pBt0 : Ptr) :
    (btree_open b ω "./test.db" pBt0 init).1.2 = (ω.out 3).getD pBt0 ∧
    (btree_open b ω "./test.db" pBt0 init).2.sDb.pVfs = ω.ptr 0 ∧
    (allOK (added init (btree_open b ω "./test.db" pBt0 init).2) →
      (btree_open b ω "./test.db" pBt0 init).2.trace.length = 5) := by
  by_cases h : ω.ret 3 = 0 <;>
  simp [btree_open, init, callVoid, callStatus, callPtr, SQLITE_OK, h, allOK, statuses, added,
    List.filterMap_cons]

/-- The cursor address that `btree_cursor` returns is the result of `malloc`,
its second call. -/
theorem btree_cursor_addr (b : Build) (ω : Env) (pBt : Ptr) (iTable : Int) (s : State) :
    (btree_cursor b ω pBt iTable s).1.2.addr = ω.ptr (s.trace.length + 1) := by
  rcases b with ⟨lfs, _ | _, ts⟩ <;>
  by_cases h : ω.ret (s.trace.length + 1 + 1 + 1 + 1 + 1 + 1) = 0 <;>
  by_cases h' : ω.ret (s.trace.length + 1 + 1 + 1 + 1 + 1 + 1 + 1) = 0 <;>
  by_cases h2 : ω.ret (s.trace.length + 1 + 1 + 1 + 1 + 1 + 1 + 1 + 1) = 0 <;>
  simp [btree_cursor, callVoid, callStatus, callPtr, callInt, SQLITE_OK, BTREE_WRCSR,
    h, h', h2]

/-- C1: when every engine call succeeds, the B-tree operations that `main`
issues are, in this order and once each: open "./test.db", begin a write
transaction, open a write cursor on table 2, insert key 5 with the 9-byte
record, close that cursor, commit.  The handle `pBt` is the one stored by
`sqlite3BtreeOpen` and the cursor `pCur` the one allocated by `btree_cursor`. -/
theorem main_issues_operations_in_order (b : Build) (ω : Env) (pBt0 : Ptr)
    (hok : allOK (main b ω pBt0).2.trace) :
    operations (main b ω pBt0).2.trace =
      [.sqlite3BtreeOpen (ω.ptr 0) "./test.db" 0 openFlags,
       .sqlite3BtreeBeginTrans ((ω.out 3).getD pBt0) BTREE_WRCSR,
       .sqlite3BtreeCursor ((ω.out 3).getD pBt0) 2 BTREE_WRCSR 0 (ω.ptr 6),
       .sqlite3BtreeInsert (ω.ptr 6) 5 mainPayload.1 9 0 0,
       .sqlite3BtreeCloseCursor (ω.ptr 6),
       .sqlite3BtreeCommit ((ω.out 3).getD pBt0)] ∧
    BTREE_WRCSR ≠ 0 := by
  refine ⟨?_, by decide⟩
  have h := main_trace b ω pBt0
  simp only at h
  rw [h] at hok ⊢
  simp only [allOK_append] at hok
  obtain ⟨⟨⟨⟨hok1, hok2⟩, -⟩, -⟩, -⟩ := hok
  obtain ⟨e1, e2, e3⟩ := main_open_result b ω pBt0
  have e4 := btree_cursor_addr b ω (btree_open b ω "./test.db" pBt0 init).1.2 2
    (btree_open b ω "./test.db" pBt0 init).2
  rw [e3 hok1] at e4
  have e5 : mainPayload.2 = 9 := by decide
  simp only [operations_append]
  rw [btree_open_operations, btree_cursor_operations _ _ _ _ _ hok2, btree_insert_operations,
    btree_close_cursor_operations, btree_commit_operations, e4, e1, e2, e5]
  rfl

/-- Witness of C1 in the environment where every call returns `SQLITE_OK`. -/
theorem main_issues_operations_in_order_witness :
    allOK (main defaultBuild envOK 0).2.trace ∧
    operations (main defaultBuild envOK 0).2.trace =
      [.sqlite3BtreeOpen 1 "./test.db" 0 openFlags,
       .sqlite3BtreeBeginTrans 4 BTREE_WRCSR,
       .sqlite3BtreeCursor 4 2 BTREE_WRCSR 0 7,
       .sqlite3BtreeInsert 7 5 mainPayload.1 9 0 0,
       .sqlite3BtreeCloseCursor 7,
       .sqlite3BtreeCommit 4] :=
  ⟨by decide, (main_issues_operations_in_order defaultBuild envOK 0 (by decide)).1⟩

/-- C2: the record that `main` builds and passes to `btree_insert` is a
3-byte header followed by the text: the first byte is the header length 3, the
number of header bytes; the serial-type codes are 0 and an odd code `c ≥ 13`
with `(c - 13) / 2 = 6`, the length of "Hello!"; the bytes after the header are
the 6 characters of "Hello!"; and the size passed is 9, header length plus text
length. -/
theorem main_record_layout (b : Build) (ω : Env) (pBt0 : Ptr) :
    ∃ (hdrLen c : Nat) (text : List Nat),
      inserts (main b ω pBt0).2.trace = [(5, mainPayload.1, mainPayload.2)] ∧
      mainPayload.1.take mainPayload.2.toNat = [hdrLen, 0, c] ++ text ∧
      hdrLen = 3 ∧ hdrLen = [hdrLen, 0, c].length ∧
      c % 2 = 1 ∧ 13 ≤ c ∧ (c - 13) / 2 = text.length ∧
      text = cstr "Hello!" ∧ text.length = 6 ∧ strlen "Hello!" = 6 ∧
      mainPayload.2 = 9 ∧ mainPayload.2 = hdrLen + text.length :=
  ⟨3, 25, cstr "Hello!", main_inserts b ω pBt0, by decide, rfl, rfl, by decide, by decide,
    by decide, rfl, by decide, by decide, by decide, by decide⟩

/-! ## The reference count and the connection mutex -/

theorem exec_snoc (b : Build) (ω : Env) (cs : List HarnessCall) (c : HarnessCall) (s : State) :
    exec b ω (cs ++ [c]) s =
      ((exec b ω cs s).1 ++ [(c, (step b ω c (exec b ω cs s).2).1)],
        (step b ω c (exec b ω cs s).2).2) := by
  simp [exec, List.foldl_append]

theorem mutexLive_append (t l : List Event) :
    mutexLive (t ++ l) = l.foldl liveStep (mutexLive t) := by
  simp [mutexLive, List.foldl_append]

theorem holdCount_append (t l : List Event) :
    holdCount (t ++ l) = holdCount t + holdCount l := by
  simp only [holdCount, count, List.countP_append, Nat.cast_add]
  ring

theorem holdCount_nil : holdCount [] = 0 := rfl

theorem holdCount_cons (e : Event) (l : List Event) :
    holdCount (e :: l) =
      (if e.call.isMutexEnter then 1 else 0) - (if e.call.isMutexLeave then 1 else 0) +
        holdCount l := by
  simp only [holdCount, count, List.countP_cons]
  split_ifs <;> simp <;> ring

theorem lastAllocFrom_append (ω : Env) (t l : List Event) (k p : Nat) :
    lastAllocFrom ω (t ++ l) k p = lastAllocFrom ω l (k + t.length) (lastAllocFrom ω t k p) := by
  induction t generalizing k p with
  | nil => simp [lastAllocFrom]
  | cons e t ih =>
    have e1 : k + 1 + t.length = k + (t.length + 1) := by omega
    rw [List.cons_append, lastAllocFrom, ih, lastAllocFrom, List.length_cons, e1]

theorem lastAlloc_append (ω : Env) (t l : List Event) :
    lastAlloc ω (t ++ l) = lastAllocFrom ω l t.length (lastAlloc ω t) := by
  simp [lastAlloc, lastAllocFrom_append]

/-- The wrapper `btree_open` preserves the relation between the reference count
and the mutex, whatever the engine returns. -/
theorem btree_open_MutexInv (b : Build) (ω : Env) (z : String) (pBt0 : Ptr) (s : State)
    (h : MutexInv ω s) : MutexInv ω (btree_open b ω z pBt0 s).2 := by
  obtain ⟨hl, hh, hm⟩ := h
  by_cases h1 : s.nRefSqlite3 = 0
  · have h1' : s.nRefSqlite3 + 1 = 1 := by omega
    simp only [h1, show ¬ (1 : Int) ≤ 0 by decide, decide_False, if_false] at hl hh hm
    by_cases hr : ω.ret (s.trace.length + 1 + 1 + 1) = 0 <;>
    simp [MutexInv, btree_open, callVoid, callStatus, callPtr, SQLITE_OK, h1, hr,
      mutexLive_append, holdCount_append, lastAlloc_append, hl, hh, hm, liveStep, holdCount_cons,
      holdCount_nil, lastAllocFrom, Call.isMutexEnter, Call.isMutexLeave, Call.isMutexAlloc]
  · have h1' : ¬ s.nRefSqlite3 + 1 = 1 := by omega
    have h2 : (1 ≤ s.nRefSqlite3 + 1) ↔ (1 ≤ s.nRefSqlite3) := by omega
    by_cases hr : ω.ret s.trace.length = 0 <;>
    simp [MutexInv, btree_open, callVoid, callStatus, callPtr, SQLITE_OK, h1', hr, h2,
      mutexLive_append, holdCount_append, lastAlloc_append, hl, hh, hm, liveStep, holdCount_cons,
      holdCount_nil, lastAllocFrom, Call.isMutexEnter, Call.isMutexLeave, Call.isMutexAlloc]

/-- The wrapper `btree_close` preserves the relation between the reference
count and the mutex, whatever the engine returns. -/
theorem btree_close_MutexInv (b : Build) (ω : Env) (pBt : Ptr) (s : State)
    (h : MutexInv ω s) : MutexInv ω (btree_close b ω pBt s).2 := by
  obtain ⟨hl, hh, hm⟩ := h
  by_cases hr : ω.ret s.trace.length = 0
  · by_cases h1 : s.nRefSqlite3 = 1
    · have h1' : s.nRefSqlite3 - 1 = 0 := by omega
      simp only [h1, le_refl, decide_True, if_true] at hl hh hm
      simp [MutexInv, btree_close, callVoid, callStatus, SQLITE_OK, h1, hr,
        mutexLive_append, holdCount_append, lastAlloc_append, hl, hh, liveStep, holdCount_cons,
        holdCount_nil, lastAllocFrom, Call.isMutexEnter, Call.isMutexLeave, Call.isMutexAlloc]
    · have h1' : ¬ s.nRefSqlite3 - 1 = 0 := by omega
      have h2 : (1 ≤ s.nRefSqlite3 - 1) ↔ (1 ≤ s.nRefSqlite3) := by omega
      simp [MutexInv, btree_close, callVoid, callStatus, SQLITE_OK, h1', hr, h2,
        mutexLive_append, holdCount_append, lastAlloc_append, hl, hh, hm, liveStep, holdCount_cons,
        holdCount_nil, lastAllocFrom, Call.isMutexEnter, Call.isMutexLeave, Call.isMutexAlloc]
  · simp [MutexInv, btree_close, callVoid, callStatus, SQLITE_OK, hr,
      mutexLive_append, holdCount_append, lastAlloc_append, hl, hh, hm, liveStep, holdCount_cons,
      holdCount_nil, lastAllocFrom, Call.isMutexEnter, Call.isMutexLeave, Call.isMutexAlloc]

theorem exec_MutexInv (b : Build) (ω : Env) (cs : List HarnessCall) (s : State)
    (h : MutexInv ω s) : MutexInv ω (exec b ω cs s).2 := by
  induction cs using List.reverseRecOn with
  | nil => simpa [exec] using h
  | append_singleton cs c ih =>
    rw [exec_snoc]
    cases c with
    | btree_open z p => exact btree_open_MutexInv b ω z p _ ih
    | btree_close p => exact btree_close_MutexInv b ω p _ ih

/-- C9: starting from the initial state, after every finite sequence of
`btree_open` and `btree_close` calls with arbitrary engine outcomes, a connection
mutex is allocated (and not freed) if and only if `nRefSqlite3 ≥ 1`, it is then
held exactly once and `sDb.mutex` is the pointer that the last
`sqlite3MutexAlloc` returned; otherwise no mutex is held and `sDb.mutex` is
null; and along the whole trace `sqlite3MutexAlloc` is never called while a
mutex is live nor `sqlite3_mutex_free` while none is. -/
theorem mutex_live_iff_referenced (b : Build) (ω : Env) (cs : List HarnessCall) :
    (mutexLive (exec b ω cs init).2.trace = some true ↔ 1 ≤ (exec b ω cs init).2.nRefSqlite3) ∧
    (holdCount (exec b ω cs init).2.trace = 1 ↔ 1 ≤ (exec b ω cs init).2.nRefSqlite3) ∧
    mutexLive (exec b ω cs init).2.trace ≠ none ∧
    (holdCount (exec b ω cs init).2.trace = 1 ∨ holdCount (exec b ω cs init).2.trace = 0) ∧
    (exec b ω cs init).2.sDb.mutex =
      (if 1 ≤ (exec b ω cs init).2.nRefSqlite3
        then lastAlloc ω (exec b ω cs init).2.trace else 0) := by
  have hinit : MutexInv ω init := by
    refine ⟨rfl, rfl, rfl⟩
  obtain ⟨hl, hh, hm⟩ := exec_MutexInv b ω cs init hinit
  refine ⟨?_, ?_, ?_, ?_, hm⟩
  · rw [hl]; simp
  · rw [hh]; split_ifs with h <;> simp [h]
  · rw [hl]; simp
  · rw [hh]; split_ifs <;> simp

/-- The wrapper `btree_open` increments `nRefSqlite3` on every path, the failing
one included. -/
theorem btree_open_nRef (b : Build) (ω : Env) (z : String) (pBt0 : Ptr) (s : State) :
    (btree_open b ω z pBt0 s).2.nRefSqlite3 = s.nRefSqlite3 + 1 := by
  by_cases h1 : s.nRefSqlite3 + 1 = 1 <;>
  by_cases h : ω.ret (s.trace.length + 1 + 1 + 1) = 0 <;>
  by_cases h' : ω.ret s.trace.length = 0 <;>
  simp [btree_open, callVoid, callStatus, callPtr, SQLITE_OK, h1, h, h']

/-- The wrapper `btree_close` decrements `nRefSqlite3` exactly when it
returns 0. -/
theorem btree_close_nRef (b : Build) (ω : Env) (pBt : Ptr) (s : State) :
    (btree_close b ω pBt s).2.nRefSqlite3 =
      s.nRefSqlite3 - (if (btree_close b ω pBt s).1 = 0 then 1 else 0) := by
  by_cases h1 : s.nRefSqlite3 - 1 = 0 <;>
  by_cases h : ω.ret s.trace.length = 0 <;>
  simp [btree_close, callVoid, callStatus, SQLITE_OK, h1, h]

/-- What the counter counts: after every sequence of `btree_open` and
`btree_close` calls, `nRefSqlite3` is the number of `btree_open` calls, failed
ones included, minus the number of `btree_close` calls that returned 0. -/
theorem exec_nRef (b : Build) (ω : Env) (cs : List HarnessCall) :
    (exec b ω cs init).2.nRefSqlite3 =
      (opensAll (exec b ω cs init).1 : Int) - (closesOK (exec b ω cs init).1 : Int) := by
  induction cs using List.reverseRecOn with
  | nil => simp [exec, init, opensAll, closesOK]
  | append_singleton cs c ih =>
    rw [exec_snoc]
    cases c with
    | btree_open z p =>
      simp only [step, btree_open_nRef, ih, opensAll, closesOK, List.countP_append,
        List.countP_cons, List.countP_nil, HarnessCall.isOpen]
      simp
      ring
    | btree_close p =>
      simp only [step, btree_close_nRef, ih, opensAll, closesOK, List.countP_append,
        List.countP_cons, List.countP_nil, HarnessCall.isOpen]
      split_ifs
      all_goals simp_all
      all_goals ring

/-- C7 (failing input): from the initial state, one `btree_open` whose
`sqlite3BtreeOpen` returns `SQLITE_CANTOPEN` (14) returns -1 and leaves
`nRefSqlite3` at 1, while no `btree_open` and no `btree_close` has returned 0. -/
theorem failed_btree_open_is_counted :
    cantOpen.1 = [(.btree_open "./test.db" 0, -1)] ∧
    statuses cantOpen.2.trace = [14] ∧
    cantOpen.2.nRefSqlite3 = 1 ∧
    (opensOK cantOpen.1 : Int) - (closesOK cantOpen.1 : Int) = 0 ∧
    cantOpen.2.nRefSqlite3 ≠ (opensOK cantOpen.1 : Int) - (closesOK cantOpen.1 : Int) := by
  decide

end Sqlite3Btree
